import Mathlib

/-!
Verification of the convex-evals scoring pipeline (runner/scorer.py and
runner/convex_backend.py), via a shallow embedding of the Python source
into Lean definitions.

External processes (bun, tsc, eslint, vitest, the convex backend binary)
are opaque: their outcomes are inputs to the embedded functions.
-/

namespace ConvexEvals

/-- The character `{` (written via its code point to keep string literals plain). -/
def obrace : Char := Char.ofNat 123

/-- The character `}`. -/
def cbrace : Char := Char.ofNat 125

/-- The character `'` (Python's string-repr quote). -/
def squoteChar : Char := Char.ofNat 39

/-- The string `'`. -/
def squote : String := String.mk [squoteChar]

/-! ## Path handling (Python `posixpath`), used by `write_filesystem` -/

/-- The `/` character. -/
def slash : Char := '/'

/-- Python `s.startswith(pre)`. -/
def pystartswith (s pre : String) : Bool :=
  pre.data.isPrefixOf s.data

/-- Python `str.split(sep)` for a one-character separator. -/
def splitChar (sep : Char) : List Char → List (List Char)
  | [] => [[]]
  | c :: cs =>
    match splitChar sep cs with
    | [] => [[]]
    | h :: t => if c = sep then [] :: h :: t else (c :: h) :: t

/-- `'/'.join(comps)` on character lists. -/
def joinSlash (comps : List (List Char)) : List Char :=
  List.intercalate [slash] comps

/-- The path component `.` as a character list. -/
def dotComp : List Char := ['.']

/-- The path component `..` as a character list. -/
def dotdotComp : List Char := ['.', '.']

/-- One step of `posixpath.normpath`'s component loop: Python's
`for comp in comps` body, acting on the accumulated `new_comps`. -/
def normpathStep (initialSlashes : Nat) (acc : List (List Char)) (comp : List Char) :
    List (List Char) :=
  if comp = [] ∨ comp = dotComp then acc
  else if comp ≠ dotdotComp ∨ (initialSlashes = 0 ∧ acc = []) ∨
      acc.getLast? = some dotdotComp then
    acc ++ [comp]
  else if acc ≠ [] then acc.dropLast
  else acc

/-- `posixpath.normpath`: collapse `//` and `.` segments and resolve `..`
segments against preceding components, following CPython's algorithm. -/
def normpath (p : String) : String :=
  if p = "" then "."
  else
    let d := p.data
    let initialSlashes : Nat :=
      if d.head? = some slash then
        (if [slash, slash].isPrefixOf d ∧ ¬ [slash, slash, slash].isPrefixOf d then 2 else 1)
      else 0
    let comps := splitChar slash d
    let newComps := comps.foldl (normpathStep initialSlashes) []
    let path :=
      (if initialSlashes = 2 then [slash, slash]
       else if initialSlashes = 1 then [slash] else []) ++ joinSlash newComps
    if path = [] then "." else String.mk path

/-- `posixpath.join a b` for two arguments: if `b` is absolute it replaces `a`;
otherwise the two are joined with a `/` unless `a` is empty or ends in `/`. -/
def pyjoin (a b : String) : String :=
  if b.data.head? = some slash then b
  else if a = "" ∨ a.data.getLast? = some slash then a ++ b
  else a ++ "/" ++ b

/-- `os.path.abspath` relative to a current working directory `cwd`:
join with `cwd` when relative, then normalize. -/
def abspath (cwd p : String) : String :=
  if p.data.head? = some slash then normpath p else normpath (pyjoin cwd p)

/-- `write_filesystem`'s per-entry loop (scorer.py lines 156-163): normalize
`join(root, relative_path)`, raise unless the result `startswith` the root,
otherwise record the write. Returns the writes performed in order, and the
exception message if one was raised (aborting the remaining entries). -/
def writeLoop (root : String) : List (String × String) → List (String × String) × Option String
  | [] => ([], none)
  | (relativePath, content) :: rest =>
    let filePath := normpath (pyjoin root relativePath)
    if pystartswith filePath root then
      let r := writeLoop root rest
      ((filePath, content) :: r.1, r.2)
    else
      ([], some ("Invalid filesystem output: " ++ filePath ++ " is not in " ++ root))

/-- `write_filesystem(project_dir, output)` (scorer.py lines 154-163).
`output` is the generated-artifact map as an ordered list of
(relative path, file content) entries; `cwd` is the interpreter's working
directory used by `os.path.abspath`. -/
def write_filesystem (cwd project_dir : String) (output : List (String × String)) :
    List (String × String) × Option String :=
  writeLoop (abspath cwd project_dir) output

/-- A path is inside a root directory iff it is the root itself or extends the
root past a `/` separator. -/
def insideRoot (root p : String) : Prop :=
  p = root ∨ (root ++ "/").data.isPrefixOf p.data = true

instance (root p : String) : Decidable (insideRoot root p) := by
  unfold insideRoot; infer_instance

/-! ## Test output extraction (scorer.py lines 310-313)

`re.sub(r"^.*?(\x7b.*\x7d).*$", r"\1", stdout, flags=re.DOTALL)` keeps, when the
output has a `{` with some `}` strictly after it, the substring from the first
`{` through the last `}`; otherwise the string is unchanged (no match). -/

/-- The brace-trimming rewrite of the vitest output, on character lists:
when some `}` follows the first `{`, keep the segment from that `{` through
the last `}`; otherwise (no match) the string is unchanged. -/
def cleanedList (s : List Char) : List Char :=
  if (s.dropWhile (fun c => c != obrace)).isEmpty then s
  else if cbrace ∈ (s.dropWhile (fun c => c != obrace)).tail then
    ((s.dropWhile (fun c => c != obrace)).reverse.dropWhile (fun c => c != cbrace)).reverse
  else s

/-- The brace-trimming rewrite of the vitest output (the `cleaned_stdout`
computation of `run_tests`). -/
def cleaned (s : String) : String :=
  String.mk (cleanedList s.data)

/-! ## Test report model and `run_tests` (scorer.py lines 288-330) -/

/-- One entry of an `assertionResults` array of the vitest JSON report. -/
structure Assertion where
  status : String
  title : String
  failureMessages : List String
deriving DecidableEq

/-- One entry of the `testResults` array of the vitest JSON report. -/
structure TestResult where
  assertionResults : List Assertion
deriving DecidableEq

/-- The fields of the parsed vitest JSON report that `run_tests` reads. -/
structure Report where
  numTotalTests : Nat
  numPassedTests : Nat
  testResults : List TestResult
deriving DecidableEq

/-- `ratio = (passed / total) if total > 0 else 0` (scorer.py line 317). -/
def passRatio (passed total : Nat) : ℚ :=
  if 0 < total then (passed : ℚ) / (total : ℚ) else 0

/-- The ratio `run_tests` computes for a parsed report. -/
def reportRatio (r : Report) : ℚ :=
  passRatio r.numPassedTests r.numTotalTests

/-- Python's `str` of a list of strings, as produced by the f-string
`f"{test['failureMessages']}"` (each element rendered in single quotes).
Faithful for messages without quotes or escapes. -/
def pyStrListRepr (l : List String) : String :=
  "[" ++ String.intercalate ", " (l.map (fun s => squote ++ s ++ squote)) ++ "]"

/-- The diagnostic `error_message` loop of `run_tests` (scorer.py lines
325-328), over the assertion results of `results["testResults"][0]`. -/
def errorMessageOf (t : TestResult) : String :=
  t.assertionResults.foldl
    (fun acc a =>
      if a.status = "failed" then
        acc ++ a.title ++ ": " ++ pyStrListRepr a.failureMessages ++ "\n"
      else acc)
    ""

/-- The observable outcome of `run_tests`: normal return, the
`TestsFailedException(message, ratio)`, the generic failure carrying the raw
output (non-zero exit, unparseable output), the parse-error failure, or the
`IndexError` raised by `results["testResults"][0]` on an empty array. -/
inductive RunTestsOutcome where
  | ok (ratio : ℚ)
  | testsFailed (message : String) (ratio : ℚ)
  | runFailure (stdout : String)
  | parseFailure
  | indexError
deriving DecidableEq

/-- `run_tests` (scorer.py lines 288-330) after the vitest subprocess has
produced exit code `returncode` and combined output `stdout`. The opaque
`parse` argument stands for `json.loads` composed with the report field
extraction; it is applied to `cleaned stdout` and returns `none` when that
try-block body raises. -/
def run_tests (parse : String → Option Report) (returncode : Int) (stdout : String) :
    RunTestsOutcome :=
  match parse (cleaned stdout) with
  | none => if returncode ≠ 0 then .runFailure stdout else .parseFailure
  | some results =>
    if reportRatio results ≠ 1 then
      match results.testResults with
      | [] => .indexError
      | t0 :: _ =>
        .testsFailed ("Tests failed:\n" ++ errorMessageOf t0) (reportRatio results)
    else .ok (reportRatio results)

/-- The ratio a `RunTestsOutcome` carries, when it carries one. -/
def outcomeRatio : RunTestsOutcome → Option ℚ
  | .ok r => some r
  | .testsFailed _ r => some r
  | _ => none

/-- Substring test on character lists (for stating what the diagnostic
message contains). -/
def containsSeg (needle : List Char) : List Char → Bool
  | [] => needle.isEmpty
  | c :: t => needle.isPrefixOf (c :: t) || containsSeg needle t

/-- Substring test on strings. -/
def strContains (needle hay : String) : Bool :=
  containsSeg needle.data hay.data

/-! ## `convex_scorer` (scorer.py lines 10-144)

The scorer runs the staged pipeline with every external-command outcome
supplied by the environment. `convex_backend` is imported by scorer.py from
`runner.convex_backend` but its definition is not part of the sources here;
entering it performs a readiness health check that can raise, which is all the
scorer's control flow depends on, so its entry outcome is one more Boolean of
the environment. -/

/-- The stages of one task's evaluation whose external command can run;
a stage appears in the run's trace exactly when the code reaches it. -/
inductive Stage where
  | write | install | codegen | tsc | eslint
  | outputBackendStart | outputDeploy
  | answerSetup | answerInstall | answerCodegen
  | answerBackendStart | answerDeploy
  | runTests
deriving DecidableEq

/-- Outcomes of the external processes consumed by one `convex_scorer` run.
Each Boolean tells whether the corresponding stage's command succeeded
(`false` means the stage's Python helper raised). `testsOutcome` is the
outcome of `run_tests`. -/
structure ScorerEnv where
  writeOk : Bool
  installOk : Bool
  codegenOk : Bool
  tscOk : Bool
  eslintOk : Bool
  outputBackendStartOk : Bool
  deployOk : Bool
  answerSetupOk : Bool
  answerInstallOk : Bool
  answerCodegenOk : Bool
  answerBackendStartOk : Bool
  answerDeployOk : Bool
  testsOutcome : RunTestsOutcome

/-- One run of `convex_scorer`: the stages reached, the score entries appended
to the local `scores` list, and the exception propagating out of the function
(`none` when it returns normally; when `err` is `some`, the caller receives
the exception and not the scores). -/
structure ScorerRun where
  trace : List Stage
  scores : List (String × ℚ)
  err : Option String
deriving DecidableEq

/-- A pass/fail stage score: `1` on success, `0` on a caught failure. -/
def stageScore (ok : Bool) : ℚ := if ok then 1 else 0

/-- The "Tests pass" score appended by the scorer (scorer.py lines 101-112):
the returned ratio, the ratio carried by a `TestsFailedException`, or `0` for
any other exception. -/
def testsScore : RunTestsOutcome → ℚ
  | .ok r => r
  | .testsFailed _ r => r
  | _ => 0

/-- The part of `convex_scorer` inside the first `with convex_backend(...)`
block (scorer.py lines 77-142): deploy of the generated backend (caught),
answer-backend setup, install, codegen, start and deploy (all uncaught), and
the test run (caught). Returns the stages reached, the scores appended after
the build stages, and the propagating exception if any. -/
def scorerRest (e : ScorerEnv) : List Stage × List (String × ℚ) × Option String :=
  if e.outputBackendStartOk = false then
    ([Stage.outputBackendStart], [], some "output backend failed to start")
  else
    let deployScore := ("`convex dev` succeeds", stageScore e.deployOk)
    if e.answerSetupOk = false then
      ([Stage.outputBackendStart, Stage.outputDeploy, Stage.answerSetup],
        [deployScore], some "answer setup failed")
    else if e.answerInstallOk = false then
      ([Stage.outputBackendStart, Stage.outputDeploy, Stage.answerSetup,
        Stage.answerInstall], [deployScore], some "answer install failed")
    else if e.answerCodegenOk = false then
      ([Stage.outputBackendStart, Stage.outputDeploy, Stage.answerSetup,
        Stage.answerInstall, Stage.answerCodegen],
        [deployScore], some "answer codegen failed")
    else if e.answerBackendStartOk = false then
      ([Stage.outputBackendStart, Stage.outputDeploy, Stage.answerSetup,
        Stage.answerInstall, Stage.answerCodegen, Stage.answerBackendStart],
        [deployScore], some "answer backend failed to start")
    else if e.answerDeployOk = false then
      ([Stage.outputBackendStart, Stage.outputDeploy, Stage.answerSetup,
        Stage.answerInstall, Stage.answerCodegen, Stage.answerBackendStart,
        Stage.answerDeploy], [deployScore], some "answer deploy failed")
    else
      ([Stage.outputBackendStart, Stage.outputDeploy, Stage.answerSetup,
        Stage.answerInstall, Stage.answerCodegen, Stage.answerBackendStart,
        Stage.answerDeploy, Stage.runTests],
        [deployScore, ("Tests pass", testsScore e.testsOutcome)], none)

/-- `convex_scorer` (scorer.py lines 10-144): the filesystem write is caught
and fatal (single zero score, early return); the four build stages each run
unconditionally in their own try/except; the rest is `scorerRest`. -/
def convex_scorer (e : ScorerEnv) : ScorerRun :=
  if e.writeOk = false then
    { trace := [Stage.write], scores := [("Valid filesystem output", 0)], err := none }
  else
    let buildScores : List (String × ℚ) :=
      [("Valid filesystem output", 1),
       ("`bun install` succeeds", stageScore e.installOk),
       ("`convex codegen` succeeds", stageScore e.codegenOk),
       ("Passes tsc", stageScore e.tscOk),
       ("Passes eslint", stageScore e.eslintOk)]
    let rest := scorerRest e
    { trace := [Stage.write, Stage.install, Stage.codegen, Stage.tsc, Stage.eslint] ++ rest.1,
      scores := buildScores ++ rest.2.1,
      err := rest.2.2 }

/-! ## `deploy` of convex_backend.py (lines 5-42)

The standalone deploy starts the backend process, health-checks it, runs the
one-shot deploy command inside `try:`, and terminates the process in
`finally:`. -/

/-- Events of one `deploy` run of convex_backend.py, in order of the
side-effecting statements. -/
inductive DeployEv where
  | spawn | healthCheck | pollCheck | devRun | terminate
deriving DecidableEq

/-- The `try:` body of `deploy` (convex_backend.py lines 32-40): the health
probe (raises on a bad status or connection failure), the liveness check of
the spawned process, and the `bunx convex dev --once` call
(`subprocess.check_call` raises on a non-zero exit). -/
def deployBody (healthOk stillRunning devOk : Bool) : List DeployEv × Option String :=
  if healthOk = false then
    ([DeployEv.healthCheck], some "health check failed")
  else if stillRunning = false then
    ([DeployEv.healthCheck, DeployEv.pollCheck], some "Convex process failed to start")
  else if devOk = false then
    ([DeployEv.healthCheck, DeployEv.pollCheck, DeployEv.devRun], some "deploy command failed")
  else
    ([DeployEv.healthCheck, DeployEv.pollCheck, DeployEv.devRun], none)

/-- `try ... finally fin`: the finalizer's events run after the body on every
path, and the body's exception (if any) still propagates. -/
def tryFinally (body : List DeployEv × Option String) (fin : List DeployEv) :
    List DeployEv × Option String :=
  (body.1 ++ fin, body.2)

/-- `deploy(output_dir)` of convex_backend.py (lines 5-42): spawn the backend
process, then the guarded body with `convex_process.terminate()` in
`finally:`. -/
def deploy (healthOk stillRunning devOk : Bool) : List DeployEv × Option String :=
  let t := tryFinally (deployBody healthOk stillRunning devOk) [DeployEv.terminate]
  (DeployEv.spawn :: t.1, t.2)

/-! ## Backend storage directories and ports (C2) -/

/-- The per-task backend storage directory the scorer provisions
(scorer.py line 74 for the generated backend, line 281 for the answer
backend): `role = true` is `backends/output`, `role = false` is
`backends/answer`. -/
def backendDir (tempdir : String) (role : Bool) (model category name : String) : String :=
  tempdir ++ (if role then "/backends/output/" else "/backends/answer/") ++
    model ++ "/" ++ category ++ "/" ++ name

/-- An injective numeric code for a character list (base `2^32 + 1`, each
digit a character code plus one). -/
def charListCode : List Char → Nat
  | [] => 0
  | c :: cs => (c.toNat + 1) + 4294967297 * charListCode cs

/-- An injective numeric code for a string. -/
def strCode (s : String) : Nat := charListCode s.data

/-- Modelled from the spec: the port chosen by the `convex_backend` context
manager, which scorer.py imports from `runner.convex_backend` and whose
definition is not among the sources here. The spec states that "path/port
construction is a pure, collision-free function of those three identifiers"
(model, category, task name) and that the two backend instances of one task
are disjoint, so the port is modelled as an injective function of the backend
role and the three identifiers, based at the backend binary's default port
3210. -/
def backendPort (role : Bool) (model category name : String) : Nat :=
  3210 + 2 * Nat.pair (if role then 0 else 1)
    (Nat.pair (strCode model) (Nat.pair (strCode category) (strCode name)))

/-- An identifier usable as a single path component: it contains no `/`. -/
def slashFree (s : String) : Prop := slash ∉ s.data

instance (s : String) : Decidable (slashFree s) := by
  unfold slashFree; infer_instance

/-! ## Concrete inputs used to instantiate the theorems -/

/-- A passed assertion with a given title. -/
def passedAssertion (t : String) : Assertion := ⟨"passed", t, []⟩

/-- The spec's example report: 4 tests, 3 passed, one failed test titled
`T4` with failure message `boom`. -/
def exampleReport : Report :=
  ⟨4, 3, [⟨[passedAssertion "T1", passedAssertion "T2", passedAssertion "T3",
            ⟨"failed", "T4", ["boom"]⟩]⟩]⟩

/-- The spec's all-passed example report: 2 tests, 2 passed. -/
def okReport : Report := ⟨2, 2, [⟨[passedAssertion "A", passedAssertion "B"]⟩]⟩

/-- A report with 4 tests, 2 passed and an empty first assertion list. -/
def halfReport : Report := ⟨4, 2, [⟨[]⟩]⟩

/-- A degenerate report: no tests and an empty `testResults` array. -/
def emptyReport : Report := ⟨0, 0, []⟩

/-- The spec's example environment: everything succeeds except the
typecheck stage. -/
def envTscFail : ScorerEnv :=
  ⟨true, true, true, false, true, true, true, true, true, true, true, true,
    RunTestsOutcome.ok 1⟩

/-- An environment where only the answer-backend dependency install fails. -/
def envAnswerInstallFail : ScorerEnv :=
  ⟨true, true, true, true, true, true, true, true, false, true, true, true,
    RunTestsOutcome.ok 1⟩

/-! ## Helper lemmas -/

theorem dropWhile_append_all {p : Char → Bool} {pre l : List Char}
    (h : ∀ a ∈ pre, p a = true) :
    (pre ++ l).dropWhile p = l.dropWhile p := by
  induction pre with
  | nil => rfl
  | cons a as ih =>
    have ha : p a = true := h a (List.mem_cons_self a as)
    have h' : ∀ b ∈ as, p b = true := fun b hb => h b (List.mem_cons_of_mem a hb)
    simp [List.dropWhile_cons, ha, ih h']

theorem reportRatio_eq_one_iff (r : Report) :
    reportRatio r = 1 ↔ 0 < r.numTotalTests ∧ r.numPassedTests = r.numTotalTests := by
  unfold reportRatio passRatio
  rcases Nat.eq_zero_or_pos r.numTotalTests with h | h
  · simp [h]
  · rw [if_pos h]
    have ht : (r.numTotalTests : ℚ) ≠ 0 := by
      exact_mod_cast h.ne'
    rw [div_eq_one_iff_eq ht]
    constructor
    · intro he
      exact ⟨h, by exact_mod_cast he⟩
    · rintro ⟨-, he⟩
      exact_mod_cast he

theorem dropWhile_cons_neg {p : Char → Bool} {a : Char} {l : List Char}
    (h : p a = false) : (a :: l).dropWhile p = a :: l := by
  simp [List.dropWhile_cons, h]

/-- === C3 counterexample ===
The claim says the extraction recovers the first balanced JSON object while
tolerating arbitrary trailing banner noise.  With trailing noise containing a
`}`, the code (which keeps everything from the first `{` through the *last*
`}`) returns the object plus the noise, not the object. -/
theorem cleaned_keeps_trailing_brace :
    cleaned "noise \x7b\"a\":1\x7d tail\x7d" = "\x7b\"a\":1\x7d tail\x7d" ∧
    ("\x7b\"a\":1\x7d tail\x7d" : String) ≠ "\x7b\"a\":1\x7d" := by
  decide

/-- === C3 ===
Amended: the extraction keeps the segment from the first `{` through the last
`}` of the stream; it therefore recovers the embedded `{...}` object exactly
when the leading noise contains no `{` and the trailing noise contains no
`}`. -/
theorem cleanedList_extracts_block (pre mid post : List Char)
    (hpre : obrace ∉ pre) (hpost : cbrace ∉ post) :
    cleanedList (pre ++ (obrace :: (mid ++ [cbrace])) ++ post) =
      obrace :: (mid ++ [cbrace]) := by
  have hL : pre ++ (obrace :: (mid ++ [cbrace])) ++ post
      = pre ++ (obrace :: (mid ++ ([cbrace] ++ post))) := by
    simp [List.append_assoc]
  have h1 : (pre ++ (obrace :: (mid ++ ([cbrace] ++ post)))).dropWhile
      (fun c => c != obrace) = obrace :: (mid ++ ([cbrace] ++ post)) := by
    rw [@dropWhile_append_all (fun c => c != obrace) pre _
        (fun a ha => by
          have hne2 : a ≠ obrace := fun he => hpre (he ▸ ha)
          simpa using hne2)]
    exact dropWhile_cons_neg (by simp)
  have h2 : (obrace :: (mid ++ ([cbrace] ++ post))).reverse
      = post.reverse ++ (cbrace :: (mid.reverse ++ [obrace])) := by
    simp
  have h3 : (post.reverse ++ (cbrace :: (mid.reverse ++ [obrace]))).dropWhile
      (fun c => c != cbrace) = cbrace :: (mid.reverse ++ [obrace]) := by
    rw [@dropWhile_append_all (fun c => c != cbrace) post.reverse _
        (fun a ha => by
          have hne2 : a ≠ cbrace := fun he => hpost (he ▸ (List.mem_reverse.mp ha))
          simpa using hne2)]
    exact dropWhile_cons_neg (by simp)
  rw [hL]
  unfold cleanedList
  rw [h1]
  rw [if_neg (by simp)]
  rw [List.tail_cons]
  rw [if_pos (by simp)]
  rw [h2, h3]
  simp

theorem cleanedList_extracts_block_witness :
    obrace ∉ "banner noise ".data ∧
    cbrace ∉ " trailing noise".data ∧
    cleanedList ("banner noise ".data ++
        (obrace ::
          ("\"numTotalTests\":1,\"numPassedTests\":1,\"testResults\":[...]".data ++
            [cbrace])) ++ " trailing noise".data) =
      obrace ::
        ("\"numTotalTests\":1,\"numPassedTests\":1,\"testResults\":[...]".data ++
          [cbrace]) :=
  ⟨by decide, by decide,
    cleanedList_extracts_block "banner noise ".data
      "\"numTotalTests\":1,\"numPassedTests\":1,\"testResults\":[...]".data
      " trailing noise".data (by decide) (by decide)⟩

/-- === C4 counterexample ===
On the spec's example report (4 tests, 3 passed, one failure titled `T4` with
failure message `boom`), `run_tests` raises with ratio `3/4` but the message
renders the failure-message *list* — `T4: ['boom']` — so it does not contain
the substring `T4: boom` the claim requires. -/
theorem run_tests_message_renders_list :
    run_tests (fun _ => some exampleReport) 1 "out" =
      RunTestsOutcome.testsFailed
        ("Tests failed:\nT4: " ++ pyStrListRepr ["boom"] ++ "\n") (3 / 4) ∧
    strContains "T4: boom"
      ("Tests failed:\nT4: " ++ pyStrListRepr ["boom"] ++ "\n") = false := by
  have hq : reportRatio exampleReport = 3 / 4 := by
    norm_num [reportRatio, passRatio, exampleReport]
  have hr : reportRatio exampleReport ≠ 1 := by
    rw [hq]; norm_num
  have ht0 : "Tests failed:\n" ++ errorMessageOf
      ⟨[passedAssertion "T1", passedAssertion "T2", passedAssertion "T3",
        ⟨"failed", "T4", ["boom"]⟩]⟩ =
      "Tests failed:\nT4: " ++ pyStrListRepr ["boom"] ++ "\n" := by decide
  constructor
  · have hrun : run_tests (fun _ => some exampleReport) 1 "out" =
        RunTestsOutcome.testsFailed
          ("Tests failed:\n" ++ errorMessageOf
            ⟨[passedAssertion "T1", passedAssertion "T2", passedAssertion "T3",
              ⟨"failed", "T4", ["boom"]⟩]⟩) (reportRatio exampleReport) := by
      simp only [run_tests]
      rw [if_pos hr]
      rfl
    rw [hrun, hq, ht0]
  · decide

/-- === C4 ===
Amended: `run_tests` returns ratio 1 without raising exactly when the report
has at least one test and every test passed; when the computed ratio differs
from 1 and `testResults` is nonempty, it raises `TestsFailedException`
carrying that same ratio and the diagnostic message listing, for each failed
test of the first `testResults` entry, its title and the Python rendering of
its failure-message list. -/
theorem run_tests_outcomes (parse : String → Option Report) (rc : Int) (out : String)
    (r : Report) (h : parse (cleaned out) = some r) :
    (run_tests parse rc out = RunTestsOutcome.ok 1 ↔
      0 < r.numTotalTests ∧ r.numPassedTests = r.numTotalTests) ∧
    (reportRatio r ≠ 1 → ∀ t0 ts, r.testResults = t0 :: ts →
      run_tests parse rc out =
        RunTestsOutcome.testsFailed ("Tests failed:\n" ++ errorMessageOf t0)
          (reportRatio r)) := by
  constructor
  · by_cases hr : reportRatio r ≠ 1
    · constructor
      · intro hok
        simp only [run_tests, h, if_pos hr] at hok
        rcases he : r.testResults with - | ⟨t0, ts⟩ <;> rw [he] at hok <;> simp at hok
      · intro hcond
        exact absurd ((reportRatio_eq_one_iff r).mpr hcond) hr
    · have hr1 : reportRatio r = 1 := not_not.mp hr
      have hrun : run_tests parse rc out = RunTestsOutcome.ok 1 := by
        simp only [run_tests, h, hr1]
        simp
      exact iff_of_true hrun ((reportRatio_eq_one_iff r).mp hr1)
  · intro hr t0 ts he
    simp only [run_tests, h, if_pos hr, he]

theorem run_tests_outcomes_witness :
    ((fun _ : String => some okReport) (cleaned "raw") = some okReport) ∧
    ((run_tests (fun _ => some okReport) 0 "raw" = RunTestsOutcome.ok 1 ↔
        0 < okReport.numTotalTests ∧
          okReport.numPassedTests = okReport.numTotalTests) ∧
     (reportRatio okReport ≠ 1 → ∀ t0 ts, okReport.testResults = t0 :: ts →
        run_tests (fun _ => some okReport) 0 "raw" =
          RunTestsOutcome.testsFailed ("Tests failed:\n" ++ errorMessageOf t0)
            (reportRatio okReport))) :=
  ⟨rfl, run_tests_outcomes (fun _ => some okReport) 0 "raw" okReport rfl⟩

/-- === C1 ===
The claim asserts that every entry whose normalized path escapes the project
root fails the check and is never written.  The code's prefix check
(`file_path.startswith(project_dir_abs)`, scorer.py line 158) lacks a trailing
separator: for root `/tmp/foo` the entry `../foobar/x` normalizes to
`/tmp/foobar/x`, which passes `startswith` yet lies outside the root, and the
write is performed there with no error. -/
theorem write_filesystem_sibling_escape :
    write_filesystem "/" "/tmp/foo" [("../foobar/x", "c")] =
      ([("/tmp/foobar/x", "c")], none) ∧
    ¬ insideRoot "/tmp/foo" "/tmp/foobar/x" := by
  decide

/-- === C9 ===
`deploy` of convex_backend.py terminates the spawned backend process on every
exit path: whatever the outcomes of the health check, the liveness poll and
the one-shot deploy command (including every path on which the body raises),
the `terminate` event occurs, and it is the last event of the run. -/
theorem deploy_always_terminates :
    ∀ healthOk stillRunning devOk : Bool,
      DeployEv.terminate ∈ (deploy healthOk stillRunning devOk).1 ∧
      (deploy healthOk stillRunning devOk).1.getLast? = some DeployEv.terminate := by
  decide

/-- === C8 ===
When the vitest output cannot be parsed into a report, `run_tests` raises the
generic failure: the one carrying the raw output if the process exited
non-zero, the parse-error one otherwise; in neither case a
`TestsFailedException`. -/
theorem run_tests_unparseable (parse : String → Option Report) (rc : Int) (out : String)
    (h : parse (cleaned out) = none) :
    run_tests parse rc out = (if rc ≠ 0 then .runFailure out else .parseFailure) ∧
    ∀ m q, run_tests parse rc out ≠ RunTestsOutcome.testsFailed m q := by
  have hrun : run_tests parse rc out =
      (if rc ≠ 0 then .runFailure out else .parseFailure) := by
    simp only [run_tests, h]
  refine ⟨hrun, fun m q => ?_⟩
  rw [hrun]
  by_cases hrc : rc ≠ 0 <;> simp [hrc]

theorem run_tests_unparseable_witness :
    ((fun _ : String => (none : Option Report)) (cleaned "garbage") = none) ∧
    (run_tests (fun _ => none) 1 "garbage" =
      (if (1 : Int) ≠ 0 then .runFailure "garbage" else .parseFailure) ∧
     ∀ m q, run_tests (fun _ => none) 1 "garbage" ≠ RunTestsOutcome.testsFailed m q) :=
  ⟨rfl, run_tests_unparseable (fun _ => none) 1 "garbage" rfl⟩

/-- === C10 ===
When the parsed report's ratio differs from 1 but `testResults` is empty,
`run_tests` hits the `IndexError` of `results["testResults"][0]` while
composing the diagnostic, and does not raise a `TestsFailedException`. -/
theorem run_tests_empty_results_index_error (parse : String → Option Report)
    (rc : Int) (out : String) (r : Report)
    (h : parse (cleaned out) = some r) (hr : reportRatio r ≠ 1)
    (he : r.testResults = []) :
    run_tests parse rc out = RunTestsOutcome.indexError ∧
    ∀ m q, run_tests parse rc out ≠ RunTestsOutcome.testsFailed m q := by
  have hrun : run_tests parse rc out = RunTestsOutcome.indexError := by
    simp only [run_tests, h, he, if_pos hr]
  exact ⟨hrun, fun m q => by rw [hrun]; simp⟩

theorem run_tests_empty_results_index_error_witness :
    ((fun _ : String => some emptyReport) (cleaned "v") = some emptyReport) ∧
    reportRatio emptyReport ≠ 1 ∧ emptyReport.testResults = [] ∧
    (run_tests (fun _ => some emptyReport) 0 "v" = RunTestsOutcome.indexError ∧
     ∀ m q, run_tests (fun _ => some emptyReport) 0 "v" ≠ RunTestsOutcome.testsFailed m q) :=
  ⟨rfl, by decide, rfl,
    run_tests_empty_results_index_error (fun _ => some emptyReport) 0 "v" emptyReport
      rfl (by decide) rfl⟩

/-- === C5 ===
The ratio `run_tests` computes for a parsed report is `passed / total` when
`numTotalTests > 0` and `0` when it is `0` (total function, no division
error), and every ratio-carrying outcome of `run_tests` carries exactly that
value. -/
theorem run_tests_ratio_formula (parse : String → Option Report) (rc : Int)
    (out : String) (r : Report) (h : parse (cleaned out) = some r) :
    (r.numTotalTests = 0 → reportRatio r = 0) ∧
    (0 < r.numTotalTests →
      reportRatio r = (r.numPassedTests : ℚ) / (r.numTotalTests : ℚ)) ∧
    ∀ q, outcomeRatio (run_tests parse rc out) = some q → q = reportRatio r := by
  refine ⟨fun h0 => ?_, fun h0 => ?_, fun q hq => ?_⟩
  · simp [reportRatio, passRatio, h0]
  · simp [reportRatio, passRatio, h0]
  · simp only [run_tests, h] at hq
    by_cases hr : reportRatio r ≠ 1
    · rw [if_pos hr] at hq
      rcases he : r.testResults with - | ⟨t0, ts⟩ <;> rw [he] at hq
      · simp [outcomeRatio] at hq
      · simp only [outcomeRatio, Option.some.injEq] at hq
        exact hq.symm
    · rw [if_neg hr] at hq
      simp only [outcomeRatio, Option.some.injEq] at hq
      exact hq.symm

theorem run_tests_ratio_formula_witness :
    ((fun _ : String => some halfReport) (cleaned "x") = some halfReport) ∧
    ((halfReport.numTotalTests = 0 → reportRatio halfReport = 0) ∧
     (0 < halfReport.numTotalTests →
        reportRatio halfReport =
          (halfReport.numPassedTests : ℚ) / (halfReport.numTotalTests : ℚ)) ∧
     ∀ q, outcomeRatio (run_tests (fun _ => some halfReport) 0 "x") = some q →
        q = reportRatio halfReport) :=
  ⟨rfl, run_tests_ratio_formula (fun _ => some halfReport) 0 "x" halfReport rfl⟩

/-- === C6 ===
Once the filesystem write succeeds, the four build stages (install, codegen,
typecheck, lint) are all reached regardless of their outcomes, and the first
five score entries record the filesystem success followed by each stage's
individual pass/fail score. -/
theorem convex_scorer_build_stages (e : ScorerEnv) (h : e.writeOk = true) :
    (Stage.install ∈ (convex_scorer e).trace ∧
     Stage.codegen ∈ (convex_scorer e).trace ∧
     Stage.tsc ∈ (convex_scorer e).trace ∧
     Stage.eslint ∈ (convex_scorer e).trace) ∧
    (convex_scorer e).scores.take 5 =
      [("Valid filesystem output", 1),
       ("`bun install` succeeds", stageScore e.installOk),
       ("`convex codegen` succeeds", stageScore e.codegenOk),
       ("Passes tsc", stageScore e.tscOk),
       ("Passes eslint", stageScore e.eslintOk)] := by
  simp [convex_scorer, h, List.take]

theorem convex_scorer_build_stages_witness :
    envTscFail.writeOk = true ∧
    ((Stage.install ∈ (convex_scorer envTscFail).trace ∧
      Stage.codegen ∈ (convex_scorer envTscFail).trace ∧
      Stage.tsc ∈ (convex_scorer envTscFail).trace ∧
      Stage.eslint ∈ (convex_scorer envTscFail).trace) ∧
     (convex_scorer envTscFail).scores.take 5 =
       [("Valid filesystem output", 1),
        ("`bun install` succeeds", 1),
        ("`convex codegen` succeeds", 1),
        ("Passes tsc", 0),
        ("Passes eslint", 1)]) :=
  ⟨rfl, by simpa [stageScore, envTscFail] using
    convex_scorer_build_stages envTscFail rfl⟩

theorem charListCode_inj : ∀ xs ys : List Char,
    charListCode xs = charListCode ys → xs = ys := by
  intro xs
  induction xs with
  | nil =>
    intro ys h
    cases ys with
    | nil => rfl
    | cons d ds =>
      exfalso
      simp only [charListCode] at h
      omega
  | cons c cs ih =>
    intro ys h
    cases ys with
    | nil =>
      exfalso
      simp only [charListCode] at h
      omega
    | cons d ds =>
      simp only [charListCode] at h
      have hc : c.toNat < 4294967296 := c.val.toNat_lt
      have hd : d.toNat < 4294967296 := d.val.toNat_lt
      have hmod := congrArg (fun n => n % 4294967297) h
      simp only [Nat.add_mul_mod_self_left] at hmod
      rw [Nat.mod_eq_of_lt (by omega), Nat.mod_eq_of_lt (by omega)] at hmod
      have hcd : c = d := by
        have htn : c.toNat = d.toNat := by omega
        have := congrArg Char.ofNat htn
        simpa [Char.ofNat_toNat] using this
      have htail : charListCode cs = charListCode ds :=
        Nat.eq_of_mul_eq_mul_left (by norm_num)
          (by omega : 4294967297 * charListCode cs = 4294967297 * charListCode ds)
      rw [hcd, ih ds htail]

theorem strCode_inj {s t : String} (h : strCode s = strCode t) : s = t :=
  String.ext (charListCode_inj s.data t.data h)

theorem append_slash_cons_inj : ∀ xs xs' : List Char, ∀ ys ys' : List Char,
    slash ∉ xs → slash ∉ xs' →
    xs ++ slash :: ys = xs' ++ slash :: ys' → xs = xs' ∧ ys = ys' := by
  intro xs
  induction xs with
  | nil =>
    intro xs' ys ys' _ hx' h
    cases xs' with
    | nil => simpa using h
    | cons b bs =>
      exfalso
      simp only [List.nil_append, List.cons_append, List.cons.injEq] at h
      exact hx' (h.1 ▸ List.mem_cons_self b bs)
  | cons a as2 ih =>
    intro xs' ys ys' hx hx' h
    cases xs' with
    | nil =>
      exfalso
      simp only [List.cons_append, List.nil_append, List.cons.injEq] at h
      exact hx (h.1 ▸ List.mem_cons_self a as2)
    | cons b bs =>
      simp only [List.cons_append, List.cons.injEq] at h
      obtain ⟨hab, hrest⟩ := h
      have hx2 : slash ∉ as2 := fun hm => hx (List.mem_cons_of_mem a hm)
      have hx2' : slash ∉ bs := fun hm => hx' (List.mem_cons_of_mem b hm)
      obtain ⟨h1, h2⟩ := ih bs ys ys' hx2 hx2' hrest
      exact ⟨by rw [hab, h1], h2⟩

theorem segments_of_dir_eq (tempdir P : String) (m c n m' c' n' : String)
    (hm : slashFree m) (hc : slashFree c)
    (hm' : slashFree m') (hc' : slashFree c')
    (h : (tempdir ++ P ++ m ++ "/" ++ c ++ "/" ++ n : String) =
      tempdir ++ P ++ m' ++ "/" ++ c' ++ "/" ++ n') :
    m = m' ∧ c = c' ∧ n = n' := by
  have hdata := congrArg String.data h
  simp only [String.data_append, List.append_assoc] at hdata
  have h0 := List.append_cancel_left hdata
  have h1 := List.append_cancel_left h0
  have h2 := append_slash_cons_inj _ _ _ _ hm hm' (by simpa using h1)
  have h3 := append_slash_cons_inj _ _ _ _ hc hc' h2.2
  exact ⟨String.ext h2.1, String.ext h3.1, String.ext h3.2⟩

theorem output_dir_ne_answer_dir (tempdir : String) (m c n m' c' n' : String) :
    (tempdir ++ "/backends/output/" ++ m ++ "/" ++ c ++ "/" ++ n : String) ≠
      tempdir ++ "/backends/answer/" ++ m' ++ "/" ++ c' ++ "/" ++ n' := by
  intro h
  have hdata := congrArg String.data h
  simp only [String.data_append, List.append_assoc] at hdata
  have h0 := List.append_cancel_left hdata
  simp at h0

theorem backendDir_inj (tempdir : String) (role role' : Bool)
    (m c n m' c' n' : String)
    (hm : slashFree m) (hc : slashFree c)
    (hm' : slashFree m') (hc' : slashFree c')
    (hdir : backendDir tempdir role m c n = backendDir tempdir role' m' c' n') :
    m = m' ∧ c = c' ∧ n = n' := by
  unfold backendDir at hdir
  cases role <;> cases role'
  · exact segments_of_dir_eq tempdir "/backends/answer/" m c n m' c' n'
      hm hc hm' hc' hdir
  · exact absurd hdir.symm (output_dir_ne_answer_dir tempdir m' c' n' m c n)
  · exact absurd hdir (output_dir_ne_answer_dir tempdir m c n m' c' n')
  · exact segments_of_dir_eq tempdir "/backends/output/" m c n m' c' n'
      hm hc hm' hc' hdir

/-- === C2 ===
Distinct (model, category, name) identifier triples never yield the same
backend port or the same backend storage directory, whichever of the two
backend roles (generated-output or answer) each instance plays.  The storage
path is the scorer's temp-path construction; the port is the spec-modelled
pure collision-free function of the identifiers. -/
theorem backend_isolation (tempdir : String) (role role' : Bool)
    (m c n m' c' n' : String)
    (hm : slashFree m) (hc : slashFree c) (hn : slashFree n)
    (hm' : slashFree m') (hc' : slashFree c') (hn' : slashFree n')
    (hne : ¬(m = m' ∧ c = c' ∧ n = n')) :
    backendPort role m c n ≠ backendPort role' m' c' n' ∧
    backendDir tempdir role m c n ≠ backendDir tempdir role' m' c' n' := by
  constructor
  · intro hport
    unfold backendPort at hport
    have hX : Nat.pair (if role then 0 else 1)
        (Nat.pair (strCode m) (Nat.pair (strCode c) (strCode n))) =
        Nat.pair (if role' then 0 else 1)
        (Nat.pair (strCode m') (Nat.pair (strCode c') (strCode n'))) := by
      omega
    have hpair := (Nat.pair_eq_pair.mp hX).2
    obtain ⟨hm1, hrest⟩ := Nat.pair_eq_pair.mp hpair
    obtain ⟨hc1, hn1⟩ := Nat.pair_eq_pair.mp hrest
    exact hne ⟨strCode_inj hm1, strCode_inj hc1, strCode_inj hn1⟩
  · intro hdir
    exact hne (backendDir_inj tempdir role role' m c n m' c' n'
      hm hc hm' hc' hdir)

theorem backend_isolation_witness :
    slashFree "gpt" ∧ slashFree "cat" ∧ slashFree "one" ∧ slashFree "two" ∧
    ¬(("gpt" : String) = "gpt" ∧ ("cat" : String) = "cat" ∧
      ("one" : String) = "two") ∧
    (backendPort true "gpt" "cat" "one" ≠ backendPort false "gpt" "cat" "two" ∧
     backendDir "/tmp/t" true "gpt" "cat" "one" ≠
       backendDir "/tmp/t" false "gpt" "cat" "two") :=
  ⟨by decide, by decide, by decide, by decide, by decide,
    backend_isolation "/tmp/t" true false "gpt" "cat" "one" "gpt" "cat" "two"
      (by decide) (by decide) (by decide) (by decide) (by decide) (by decide)
      (by decide)⟩

/-- === C7 counterexample ===
The claim says nothing propagates uncaught out of `convex_scorer` except
filesystem-write-stage errors.  In an environment where the filesystem write
(and every scored stage) succeeds but the answer-backend dependency install
(scorer.py line 92, outside every try/except) fails, the exception
propagates out of `convex_scorer`. -/
theorem convex_scorer_uncaught_answer_failure :
    envAnswerInstallFail.writeOk = true ∧
    (convex_scorer envAnswerInstallFail).err = some "answer install failed" :=
  ⟨rfl, rfl⟩

/-- === C7 ===
Amended: every error of the scored stages (filesystem write, install, codegen,
typecheck, lint, candidate deploy, test run) is caught at its stage boundary
and converted into a score entry — the filesystem-write failure
short-circuiting the task with a single zero score — and the run raises
exactly when one of the unguarded steps fails: output-backend startup, or the
answer backend's setup, install, codegen, startup or deploy. -/
theorem convex_scorer_propagation (e : ScorerEnv) :
    ((convex_scorer e).err = none ↔
      (e.writeOk = false ∨
        (e.outputBackendStartOk = true ∧ e.answerSetupOk = true ∧
         e.answerInstallOk = true ∧ e.answerCodegenOk = true ∧
         e.answerBackendStartOk = true ∧ e.answerDeployOk = true))) ∧
    (e.writeOk = false →
      convex_scorer e =
        { trace := [Stage.write], scores := [("Valid filesystem output", 0)],
          err := none }) := by
  obtain ⟨w, i, cg, t, l, ob, d, st, ai, ac, ab, ad, u⟩ := e
  constructor
  · cases w <;> cases ob <;> cases st <;> cases ai <;> cases ac <;>
      cases ab <;> cases ad <;> simp [convex_scorer, scorerRest]
  · cases w <;> simp [convex_scorer]

